import Mathlib

/-!
Shallow embedding of `src/auto_activity.py` (repository jakerslam/ActivityLog).

The script is one linear procedure `main()`: validate the repository path,
gate on the weekday, gate on a random draw, append a timestamped line to a
log file, then shell out to `git status --porcelain`, `git add`, `git commit`
and `git push`, exiting with a distinct code at each failure point.

The embedding makes every external interaction an explicit input:
`Env` carries the weekday, the uniform draw (as a rational; the Python float
draw in [0,1) is abstracted to ℚ, preserving the comparison semantics the
script relies on), the two `datetime.now()` readings, the note choice index,
whether the file append succeeds, and for each git invocation whether
`subprocess.run` raises and otherwise its return code and captured
stdout/stderr. `main` then computes the observable outcome: the process exit
code, the strings appended to the target file, the trace of attempted git
invocations, and the lines printed to stdout and stderr.
-/

namespace ActivityLog

/-- A git invocation attempted by the script, with the data the script passes
to it (the staged filename, the commit message). Mirrors the four
`run([...])` call sites of `main()`. -/
inductive GitCmd where
  | status
  | add (fname : String)
  | commit (msg : String)
  | push
deriving DecidableEq, Repr

/-- The compiled-in configuration surface of the script: `REPO_DIR`,
`FILENAME`, `PROBABILITY`, `DRY_RUN`, `NOTES` (lines 15-29 of the source). -/
structure Config where
  repo_dir : String
  filename : String
  probability : Rat
  dry_run : Bool
  notes : List String
deriving DecidableEq, Repr

/-- The `NOTES` constant of the source, verbatim. -/
def NOTES : List String :=
  ["refactor notes",
   "small doc tweak",
   "daily log entry",
   "update dependencies list",
   "tiny formatting fix",
   "add sample output",
   "note about tests"]

/-- The configuration constants as compiled into the source. -/
def CONFIG : Config :=
  { repo_dir := "/path/to/your/repo"
    filename := "activity_log.txt"
    probability := 7/10
    dry_run := false
    notes := NOTES }

/-- The compiled-in configuration with the dry-run flag switched on, the one
source edit the script's comment describes (`set True to test without
pushing`). -/
def DRYCFG : Config := { CONFIG with dry_run := true }

/-- A local-time reading, as the fields `datetime.now()` exposes that
`isoformat(timespec='seconds')` renders. -/
structure DateTime where
  year : Nat
  month : Nat
  day : Nat
  hour : Nat
  minute : Nat
  second : Nat
deriving DecidableEq, Repr

/-- The field ranges Python's `datetime` guarantees (year 1..9999, month
1..12, day 1..31, hour/minute/second in range). -/
def DateTime.Valid (dt : DateTime) : Prop :=
  1 ≤ dt.year ∧ dt.year ≤ 9999 ∧ 1 ≤ dt.month ∧ dt.month ≤ 12 ∧
  1 ≤ dt.day ∧ dt.day ≤ 31 ∧ dt.hour < 24 ∧ dt.minute < 60 ∧ dt.second < 60

instance (dt : DateTime) : Decidable dt.Valid := by
  unfold DateTime.Valid; infer_instance

/-- Two decimal digits with zero padding, as `%02d` renders a field of
`datetime.isoformat` (faithful for inputs below 100, which `Valid` gives). -/
def pad2 (n : Nat) : String :=
  String.mk [Nat.digitChar (n / 10 % 10), Nat.digitChar (n % 10)]

/-- Four decimal digits with zero padding, as `%04d` renders the year
(faithful for years up to 9999, which `Valid` gives). -/
def pad4 (n : Nat) : String :=
  String.mk [Nat.digitChar (n / 1000 % 10), Nat.digitChar (n / 100 % 10),
             Nat.digitChar (n / 10 % 10), Nat.digitChar (n % 10)]

/-- `datetime.isoformat(timespec='seconds')`: `YYYY-MM-DDTHH:MM:SS`
(line 55 of the source). -/
def DateTime.isoformatSeconds (dt : DateTime) : String :=
  pad4 dt.year ++ "-" ++ pad2 dt.month ++ "-" ++ pad2 dt.day ++ "T" ++
  pad2 dt.hour ++ ":" ++ pad2 dt.minute ++ ":" ++ pad2 dt.second

/-- Checker for the ISO-8601 second-precision timestamp shape
`DDDD-DD-DDTDD:DD:DD` (19 characters, digits and fixed punctuation). -/
def isIso8601Seconds (s : String) : Bool :=
  match s.data with
  | [y1, y2, y3, y4, a, mo1, mo2, b, d1, d2, t, h1, h2, c, mi1, mi2, e, s1, s2] =>
      y1.isDigit && y2.isDigit && y3.isDigit && y4.isDigit && a = '-' &&
      mo1.isDigit && mo2.isDigit && b = '-' && d1.isDigit && d2.isDigit &&
      t = 'T' && h1.isDigit && h2.isDigit && c = ':' && mi1.isDigit &&
      mi2.isDigit && e = ':' && s1.isDigit && s2.isDigit
  | _ => false

/-- Python's `a or b` on the two captured streams (`res.stderr or res.stdout`
and `res.stdout or res.stderr` in the source): the first when it is
non-empty, otherwise the second. -/
def pyOr (a b : String) : String := if a = "" then b else a

/-- The line `print(f"Random roll: {r:.3f} (need < {PROBABILITY})")`. The
`:.3f` float rendering is abstracted to `toString` on the rational model of
the draw; the rendered text remains a function of the draw and the
configured probability only, which is all the claims rely on. -/
def formatRoll (r p : Rat) : String :=
  "Random roll: " ++ toString r ++ " (need < " ++ toString p ++ ")"

/-- `random.choice(NOTES)`: a uniformly drawn element, modelled by an
arbitrary index reduced modulo the length. `random.choice` raises on an
empty sequence; callers supply a non-empty `notes` (the compiled-in `NOTES`
has seven elements). -/
def chooseNote (notes : List String) (idx : Nat) : String :=
  notes.getD (idx % notes.length) ""

/-- One run's external world, read in program order: does
`os.path.isdir(REPO_DIR)` hold; the weekday of the first `datetime.now()`;
the `random.random()` draw; the second `datetime.now()` reading (line 55);
the `random.choice` index; whether the `open(..., "a")` append completes and
the exception text when it does not; and for each git call whether
`subprocess.run` raises (any exception lands in the `except` of lines
103-105, with message `exnMsg`) and otherwise its return code and captured
stdout/stderr. -/
structure Env where
  repo_isdir : Bool
  weekday : Nat
  r : Rat
  now2 : DateTime
  noteIdx : Nat
  writeOk : Bool
  writeErr : String
  statusExn : Bool
  statusRc : Nat
  statusOut : String
  statusErr : String
  addExn : Bool
  addRc : Nat
  addOut : String
  addErr : String
  commitExn : Bool
  commitRc : Nat
  commitOut : String
  commitErr : String
  pushExn : Bool
  pushRc : Nat
  pushOut : String
  pushErr : String
  exnMsg : String
deriving DecidableEq, Repr

/-- The observable outcome of one run: the process exit code (`sys.exit(k)`
or 0 on normal return), the strings appended to the target file, the git
invocations attempted in order, and the lines printed to stdout and stderr
(each `print` with several arguments joins them with one space, as Python
does). -/
structure RunResult where
  exitCode : Nat
  appended : List String
  gitCmds : List GitCmd
  stdoutLines : List String
  stderrLines : List String
deriving DecidableEq, Repr

/-- The `main()` procedure of `src/auto_activity.py`, line for line: repo
check (38-40), weekday gate (43-46), probability gate (48-52), record
construction (55-57), file append (61-66), then the git phase (69-105) with
its `status`, `add`, dry-run return, `commit`, `push` steps and the
`except` clause mapping any raised exception to exit 7. -/
def main (cfg : Config) (env : Env) : RunResult :=
  if env.repo_isdir = false then
    { exitCode := 2, appended := [], gitCmds := [], stdoutLines := [],
      stderrLines := ["ERROR: REPO_DIR not found: " ++ cfg.repo_dir] }
  else if 5 ≤ env.weekday then
    { exitCode := 0, appended := [], gitCmds := [],
      stdoutLines := ["Not a weekday (Sat/Sun). Exiting."], stderrLines := [] }
  else
    let roll := formatRoll env.r cfg.probability
    if cfg.probability ≤ env.r then
      { exitCode := 0, appended := [], gitCmds := [],
        stdoutLines := [roll, "Skipping commit this run (rolled above probability)."],
        stderrLines := [] }
    else
      let ts := env.now2.isoformatSeconds
      let note := chooseNote cfg.notes env.noteIdx
      let line := ts ++ " — " ++ note ++ "\n"
      if env.writeOk = false then
        { exitCode := 3, appended := [], gitCmds := [], stdoutLines := [roll],
          stderrLines := ["ERROR writing file: " ++ env.writeErr] }
      else if env.statusExn then
        { exitCode := 7, appended := [line], gitCmds := [.status],
          stdoutLines := [roll],
          stderrLines := ["ERROR during git operations: " ++ env.exnMsg] }
      else if env.statusRc ≠ 0 then
        { exitCode := 4, appended := [line], gitCmds := [.status],
          stdoutLines := [roll],
          stderrLines := ["git status failed: " ++ pyOr env.statusErr env.statusOut] }
      else if env.addExn then
        { exitCode := 7, appended := [line],
          gitCmds := [.status, .add cfg.filename], stdoutLines := [roll],
          stderrLines := ["ERROR during git operations: " ++ env.exnMsg] }
      else if env.addRc ≠ 0 then
        { exitCode := 5, appended := [line],
          gitCmds := [.status, .add cfg.filename], stdoutLines := [roll],
          stderrLines := ["git add failed: " ++ pyOr env.addErr env.addOut] }
      else
        let commit_msg := "Automated activity: " ++ ts ++ " — " ++ note
        if cfg.dry_run then
          { exitCode := 0, appended := [line],
            gitCmds := [.status, .add cfg.filename],
            stdoutLines := [roll, "[DRY RUN] Would commit with message: " ++ commit_msg],
            stderrLines := [] }
        else if env.commitExn then
          { exitCode := 7, appended := [line],
            gitCmds := [.status, .add cfg.filename, .commit commit_msg],
            stdoutLines := [roll],
            stderrLines := ["ERROR during git operations: " ++ env.exnMsg] }
        else if env.commitRc ≠ 0 then
          { exitCode := 0, appended := [line],
            gitCmds := [.status, .add cfg.filename, .commit commit_msg],
            stdoutLines := [roll, "git commit returned non-zero. Output:",
                            pyOr env.commitOut env.commitErr],
            stderrLines := [] }
        else if env.pushExn then
          { exitCode := 7, appended := [line],
            gitCmds := [.status, .add cfg.filename, .commit commit_msg, .push],
            stdoutLines := [roll],
            stderrLines := ["ERROR during git operations: " ++ env.exnMsg] }
        else if env.pushRc ≠ 0 then
          { exitCode := 6, appended := [line],
            gitCmds := [.status, .add cfg.filename, .commit commit_msg, .push],
            stdoutLines := [roll],
            stderrLines := ["git push failed: " ++ pyOr env.pushErr env.pushOut] }
        else
          { exitCode := 0, appended := [line],
            gitCmds := [.status, .add cfg.filename, .commit commit_msg, .push],
            stdoutLines := [roll, "Success: committed and pushed: " ++ commit_msg],
            stderrLines := [] }

/-- The target file after a run, given its prior contents: the script only
ever opens the file with mode `"a"`, so the run's appends land after the
prior contents. -/
def fileAfter (old : String) (cfg : Config) (env : Env) : String :=
  old ++ String.join (main cfg env).appended

/-- The messages passed to `git commit -m` during a run, in order. -/
def commitMsgs (cmds : List GitCmd) : List String :=
  cmds.filterMap fun c =>
    match c with
    | .commit m => some m
    | _ => none

/-- A fully successful weekday run: repository present, Wednesday, draw 1/10,
file write succeeds, every git command returns 0. -/
def envHappy : Env :=
  { repo_isdir := true, weekday := 2, r := 1/10,
    now2 := ⟨2026, 10, 12, 9, 30, 5⟩, noteIdx := 0,
    writeOk := true, writeErr := "",
    statusExn := false, statusRc := 0, statusOut := "", statusErr := "",
    addExn := false, addRc := 0, addOut := "", addErr := "",
    commitExn := false, commitRc := 0, commitOut := "", commitErr := "",
    pushExn := false, pushRc := 0, pushOut := "", pushErr := "",
    exnMsg := "boom" }

/-- The happy run moved to a Sunday (weekday 6). -/
def envRest : Env := { envHappy with weekday := 6 }

/-- The happy run with a draw of 8/10, at or above the configured 7/10. -/
def envMiss : Env := { envHappy with r := 8/10 }

/-- The happy run with the repository directory missing. -/
def envNoRepo : Env := { envHappy with repo_isdir := false }

/-- The happy run where `git commit` returns a non-zero code. -/
def envNothingToCommit : Env := { envHappy with commitRc := 1 }

theorem digitChar_isDigit_of_lt : ∀ m, m < 10 → (Nat.digitChar m).isDigit = true := by
  decide

theorem digitChar_mod10_isDigit (n : Nat) : (Nat.digitChar (n % 10)).isDigit = true :=
  digitChar_isDigit_of_lt _ (Nat.mod_lt _ (by decide))

/-- Every rendering of `isoformatSeconds` has the ISO-8601 second-precision
shape: four digits, dash, two digits, dash, two digits, `T`, and three
colon-separated two-digit groups. -/
theorem isoformatSeconds_iso (dt : DateTime) :
    isIso8601Seconds dt.isoformatSeconds = true := by
  simp [DateTime.isoformatSeconds, pad4, pad2, isIso8601Seconds, String.data_append,
        digitChar_mod10_isDigit]

/-- The chosen note is one of the configured notes whenever the list is
non-empty. -/
theorem chooseNote_mem {notes : List String} (h : notes ≠ []) (idx : Nat) :
    chooseNote notes idx ∈ notes := by
  unfold chooseNote
  have hlen : 0 < notes.length := List.length_pos.mpr h
  have hlt : idx % notes.length < notes.length := Nat.mod_lt _ hlen
  rw [List.getD_eq_getElem _ _ hlt]
  exact List.getElem_mem _

/-- What a run appends to the target file, as a function of the pre-git
inputs alone: nothing unless the repository exists, the weekday gate and the
probability gate pass and the write succeeds; otherwise exactly the one
constructed line. -/
theorem main_appended_char (cfg : Config) (env : Env) :
    (main cfg env).appended =
      if env.repo_isdir = false then [] else
      if 5 ≤ env.weekday then [] else
      if cfg.probability ≤ env.r then [] else
      if env.writeOk = false then [] else
        [env.now2.isoformatSeconds ++ " — " ++ chooseNote cfg.notes env.noteIdx ++ "\n"] := by
  by_cases h1 : env.repo_isdir = false
  · simp [main, h1]
  · by_cases h2 : 5 ≤ env.weekday
    · simp [main, h1, h2]
    · by_cases h3 : cfg.probability ≤ env.r
      · simp [main, h1, h2, h3]
      · by_cases h4 : env.writeOk = false
        · simp [main, h1, h2, h3, h4]
        · by_cases h5 : env.statusExn = true
          · simp [main, h1, h2, h3, h4, h5]
          · by_cases h6 : env.statusRc = 0
            · by_cases h7 : env.addExn = true
              · simp [main, h1, h2, h3, h4, h5, h6, h7]
              · by_cases h8 : env.addRc = 0
                · by_cases h9 : cfg.dry_run = true
                  · simp [main, h1, h2, h3, h4, h5, h6, h7, h8, h9]
                  · by_cases h10 : env.commitExn = true
                    · simp [main, h1, h2, h3, h4, h5, h6, h7, h8, h9, h10]
                    · by_cases h11 : env.commitRc = 0
                      · by_cases h12 : env.pushExn = true
                        · simp [main, h1, h2, h3, h4, h5, h6, h7, h8, h9, h10, h11, h12]
                        · by_cases h13 : env.pushRc = 0
                          · simp [main, h1, h2, h3, h4, h5, h6, h7, h8, h9, h10, h11, h12, h13]
                          · simp [main, h1, h2, h3, h4, h5, h6, h7, h8, h9, h10, h11, h12, h13]
                      · simp [main, h1, h2, h3, h4, h5, h6, h7, h8, h9, h10, h11]
                · simp [main, h1, h2, h3, h4, h5, h6, h7, h8]
            · simp [main, h1, h2, h3, h4, h5, h6]

/-- Once the run reaches the status probe and the probe returns 0, the file
is staged: `git add FILENAME` is among the attempted invocations, whatever
the later steps do. -/
theorem add_mem_gitCmds (cfg : Config) (env : Env)
    (hrepo : env.repo_isdir = true) (hwd : env.weekday < 5)
    (hr : env.r < cfg.probability) (hw : env.writeOk = true)
    (hsE : env.statusExn = false) (hsRc : env.statusRc = 0) :
    GitCmd.add cfg.filename ∈ (main cfg env).gitCmds := by
  have hwd' : ¬ 5 ≤ env.weekday := by omega
  have hr' : ¬ cfg.probability ≤ env.r := not_le.mpr hr
  by_cases h7 : env.addExn = true
  · simp [main, hrepo, hwd', hr', hw, hsE, hsRc, h7]
  · by_cases h8 : env.addRc = 0
    · by_cases h9 : cfg.dry_run = true
      · simp [main, hrepo, hwd', hr', hw, hsE, hsRc, h7, h8, h9]
      · by_cases h10 : env.commitExn = true
        · simp [main, hrepo, hwd', hr', hw, hsE, hsRc, h7, h8, h9, h10]
        · by_cases h11 : env.commitRc = 0
          · by_cases h12 : env.pushExn = true
            · simp [main, hrepo, hwd', hr', hw, hsE, hsRc, h7, h8, h9, h10, h11, h12]
            · by_cases h13 : env.pushRc = 0
              · simp [main, hrepo, hwd', hr', hw, hsE, hsRc, h7, h8, h9, h10, h11, h12, h13]
              · simp [main, hrepo, hwd', hr', hw, hsE, hsRc, h7, h8, h9, h10, h11, h12, h13]
          · simp [main, hrepo, hwd', hr', hw, hsE, hsRc, h7, h8, h9, h10, h11]
    · simp [main, hrepo, hwd', hr', hw, hsE, hsRc, h7, h8]

/-- Exact characterization of the exit code: membership in the code set and,
for each code, the precise stage condition that produces it. -/
theorem exitCode_characterization (cfg : Config) (env : Env) :
    (main cfg env).exitCode ∈ [0, 2, 3, 4, 5, 6, 7] ∧
    ((main cfg env).exitCode = 2 ↔ env.repo_isdir = false) ∧
    ((main cfg env).exitCode = 3 ↔ env.repo_isdir = true ∧ env.weekday < 5 ∧
        env.r < cfg.probability ∧ env.writeOk = false) ∧
    ((main cfg env).exitCode = 4 ↔ env.repo_isdir = true ∧ env.weekday < 5 ∧
        env.r < cfg.probability ∧ env.writeOk = true ∧ env.statusExn = false ∧
        env.statusRc ≠ 0) ∧
    ((main cfg env).exitCode = 5 ↔ env.repo_isdir = true ∧ env.weekday < 5 ∧
        env.r < cfg.probability ∧ env.writeOk = true ∧ env.statusExn = false ∧
        env.statusRc = 0 ∧ env.addExn = false ∧ env.addRc ≠ 0) ∧
    ((main cfg env).exitCode = 6 ↔ env.repo_isdir = true ∧ env.weekday < 5 ∧
        env.r < cfg.probability ∧ env.writeOk = true ∧ env.statusExn = false ∧
        env.statusRc = 0 ∧ env.addExn = false ∧ env.addRc = 0 ∧ cfg.dry_run = false ∧
        env.commitExn = false ∧ env.commitRc = 0 ∧ env.pushExn = false ∧
        env.pushRc ≠ 0) ∧
    ((main cfg env).exitCode = 7 ↔ env.repo_isdir = true ∧ env.weekday < 5 ∧
        env.r < cfg.probability ∧ env.writeOk = true ∧
        (env.statusExn = true ∨ (env.statusRc = 0 ∧ (env.addExn = true ∨
          (env.addRc = 0 ∧ cfg.dry_run = false ∧ (env.commitExn = true ∨
            (env.commitRc = 0 ∧ env.pushExn = true))))))) ∧
    ((main cfg env).exitCode = 0 ↔ env.repo_isdir = true ∧ (5 ≤ env.weekday ∨
        (env.weekday < 5 ∧ (cfg.probability ≤ env.r ∨ (env.r < cfg.probability ∧
          env.writeOk = true ∧ env.statusExn = false ∧ env.statusRc = 0 ∧
          env.addExn = false ∧ env.addRc = 0 ∧ (cfg.dry_run = true ∨
            (cfg.dry_run = false ∧ env.commitExn = false ∧ (env.commitRc ≠ 0 ∨
              (env.commitRc = 0 ∧ env.pushExn = false ∧ env.pushRc = 0))))))))) := by
  by_cases h1 : env.repo_isdir = false
  · simp [main, h1]
  · have h1' : env.repo_isdir = true := by simpa using h1
    by_cases h2 : 5 ≤ env.weekday
    · have h2' : ¬ env.weekday < 5 := by omega
      simp [main, h1', h2, h2']
    · have h2' : env.weekday < 5 := by omega
      by_cases h3 : cfg.probability ≤ env.r
      · have h3' : ¬ env.r < cfg.probability := not_lt.mpr h3
        simp [main, h1', h2, h2', h3, h3']
      · have h3' : env.r < cfg.probability := not_le.mp h3
        by_cases h4 : env.writeOk = false
        · simp [main, h1', h2, h2', h3, h3', h4]
        · have h4' : env.writeOk = true := by simpa using h4
          by_cases h5 : env.statusExn = true
          · simp [main, h1', h2, h2', h3, h3', h4', h5]
          · have h5' : env.statusExn = false := by simpa using h5
            by_cases h6 : env.statusRc = 0
            · by_cases h7 : env.addExn = true
              · simp [main, h1', h2, h2', h3, h3', h4', h5', h6, h7]
              · have h7' : env.addExn = false := by simpa using h7
                by_cases h8 : env.addRc = 0
                · by_cases h9 : cfg.dry_run = true
                  · simp [main, h1', h2, h2', h3, h3', h4', h5', h6, h7', h8, h9]
                  · have h9' : cfg.dry_run = false := by simpa using h9
                    by_cases h10 : env.commitExn = true
                    · simp [main, h1', h2, h2', h3, h3', h4', h5', h6, h7', h8, h9', h10]
                    · have h10' : env.commitExn = false := by simpa using h10
                      by_cases h11 : env.commitRc = 0
                      · by_cases h12 : env.pushExn = true
                        · simp [main, h1', h2, h2', h3, h3', h4', h5', h6, h7', h8, h9', h10',
                                h11, h12]
                        · have h12' : env.pushExn = false := by simpa using h12
                          by_cases h13 : env.pushRc = 0
                          · simp [main, h1', h2, h2', h3, h3', h4', h5', h6, h7', h8, h9',
                                  h10', h11, h12', h13]
                          · simp [main, h1', h2, h2', h3, h3', h4', h5', h6, h7', h8, h9',
                                  h10', h11, h12', h13]
                      · simp [main, h1', h2, h2', h3, h3', h4', h5', h6, h7', h8, h9', h10', h11]
                · simp [main, h1', h2, h2', h3, h3', h4', h5', h6, h7', h8]
            · simp [main, h1', h2, h2', h3, h3', h4', h5', h6]

/-- Each failure exit code is attained by a concrete run against the
compiled-in configuration. -/
theorem exitCode_reachable :
    (∃ e : Env, (main CONFIG e).exitCode = 2) ∧
    (∃ e : Env, (main CONFIG e).exitCode = 3) ∧
    (∃ e : Env, (main CONFIG e).exitCode = 4) ∧
    (∃ e : Env, (main CONFIG e).exitCode = 5) ∧
    (∃ e : Env, (main CONFIG e).exitCode = 6) ∧
    (∃ e : Env, (main CONFIG e).exitCode = 7) := by
  refine ⟨⟨{ envHappy with repo_isdir := false }, ?_⟩,
          ⟨{ envHappy with writeOk := false }, ?_⟩,
          ⟨{ envHappy with statusRc := 1 }, ?_⟩,
          ⟨{ envHappy with addRc := 1 }, ?_⟩,
          ⟨{ envHappy with pushRc := 1 }, ?_⟩,
          ⟨{ envHappy with statusExn := true }, ?_⟩⟩ <;>
    simp [main, CONFIG, envHappy] <;> norm_num

/-- The draw of the happy run is below the compiled-in probability. -/
theorem envHappy_r_lt_probability : envHappy.r < CONFIG.probability := by
  norm_num [envHappy, CONFIG]

/-- The missed draw lies in the unit interval: it is non-negative. -/
theorem envMiss_r_nonneg : (0 : Rat) ≤ envMiss.r := by
  norm_num [envMiss, envHappy]

/-- The missed draw lies in the unit interval: it is below one. -/
theorem envMiss_r_lt_one : envMiss.r < 1 := by
  norm_num [envMiss, envHappy]

/-- The missed draw is at or above the compiled-in probability. -/
theorem envMiss_r_ge_probability : CONFIG.probability ≤ envMiss.r := by
  norm_num [envMiss, envHappy, CONFIG]

/-- C1: on a non-rest weekday whose draw is strictly below the configured
probability, with the environment cooperating up to the commit call (write
succeeds, status probe and staging return 0, no exception, dry-run off,
configured notes non-empty, a valid clock reading), exactly one line of the
form `<ISO-8601 timestamp, second precision> — <configured note>` is
appended; the one message passed to `git commit` is `Automated activity: `
followed by that same timestamp and note; and when the push then returns 0,
the printed confirmation contains that exact commit message. -/
theorem c1_happy_path (cfg : Config) (env : Env)
    (hrepo : env.repo_isdir = true) (hwd : env.weekday < 5)
    (hr : env.r < cfg.probability) (hw : env.writeOk = true)
    (hsE : env.statusExn = false) (hsRc : env.statusRc = 0)
    (haE : env.addExn = false) (haRc : env.addRc = 0)
    (hdry : cfg.dry_run = false) (hcE : env.commitExn = false)
    (hnotes : cfg.notes ≠ []) (hts : env.now2.Valid) :
    ∃ note ∈ cfg.notes,
      (main cfg env).appended =
        [env.now2.isoformatSeconds ++ " — " ++ note ++ "\n"] ∧
      isIso8601Seconds env.now2.isoformatSeconds = true ∧
      commitMsgs (main cfg env).gitCmds =
        ["Automated activity: " ++ env.now2.isoformatSeconds ++ " — " ++ note] ∧
      (env.commitRc = 0 → env.pushExn = false → env.pushRc = 0 →
        ("Success: committed and pushed: " ++
          ("Automated activity: " ++ env.now2.isoformatSeconds ++ " — " ++ note))
          ∈ (main cfg env).stdoutLines) := by
  refine ⟨chooseNote cfg.notes env.noteIdx, chooseNote_mem hnotes _, ?_⟩
  have hwd' : ¬ 5 ≤ env.weekday := by omega
  have hr' : ¬ cfg.probability ≤ env.r := not_le.mpr hr
  by_cases hcRc : env.commitRc = 0
  · by_cases hpE : env.pushExn = true
    · simp [main, commitMsgs, hrepo, hwd', hr', hw, hsE, hsRc, haE, haRc, hdry, hcE, hcRc, hpE,
            isoformatSeconds_iso]
    · by_cases hpRc : env.pushRc = 0
      · simp [main, commitMsgs, hrepo, hwd', hr', hw, hsE, hsRc, haE, haRc, hdry, hcE, hcRc,
              hpE, hpRc, isoformatSeconds_iso]
      · simp [main, commitMsgs, hrepo, hwd', hr', hw, hsE, hsRc, haE, haRc, hdry, hcE, hcRc,
              hpE, hpRc, isoformatSeconds_iso]
  · simp [main, commitMsgs, hrepo, hwd', hr', hw, hsE, hsRc, haE, haRc, hdry, hcE, hcRc,
          isoformatSeconds_iso]

/-- Witness for C1: the happy weekday run against the compiled-in
configuration. -/
theorem c1_witness :
    ∃ note ∈ CONFIG.notes,
      (main CONFIG envHappy).appended =
        [envHappy.now2.isoformatSeconds ++ " — " ++ note ++ "\n"] ∧
      isIso8601Seconds envHappy.now2.isoformatSeconds = true ∧
      commitMsgs (main CONFIG envHappy).gitCmds =
        ["Automated activity: " ++ envHappy.now2.isoformatSeconds ++ " — " ++ note] ∧
      (envHappy.commitRc = 0 → envHappy.pushExn = false → envHappy.pushRc = 0 →
        ("Success: committed and pushed: " ++
          ("Automated activity: " ++ envHappy.now2.isoformatSeconds ++ " — " ++ note))
          ∈ (main CONFIG envHappy).stdoutLines) :=
  c1_happy_path CONFIG envHappy rfl (by decide) envHappy_r_lt_probability rfl rfl rfl rfl rfl
    rfl rfl (by decide) (by decide)

/-- C2: the exit code is one of 0, 2, 3, 4, 5, 6, 7 (pairwise distinct, as
the `Nodup` conjunct records); 2 exactly when the repository path check
fails, 3 exactly when the file write fails, 4 for the status probe, 5 for
staging, 6 for the push, 7 exactly for an exception during the git phase,
and 0 exactly on the no-op and success paths (rest day, probability miss,
dry-run completion, nothing to commit, full success); each failure code is
reachable by a concrete run. -/
theorem c2_exit_codes (cfg : Config) (env : Env) :
    (((main cfg env).exitCode ∈ [0, 2, 3, 4, 5, 6, 7] ∧
      ([2, 3, 4, 5, 6, 7] : List Nat).Nodup) ∧
     (((main cfg env).exitCode = 2 ↔ env.repo_isdir = false) ∧
      ((main cfg env).exitCode = 3 ↔ env.repo_isdir = true ∧ env.weekday < 5 ∧
          env.r < cfg.probability ∧ env.writeOk = false) ∧
      ((main cfg env).exitCode = 4 ↔ env.repo_isdir = true ∧ env.weekday < 5 ∧
          env.r < cfg.probability ∧ env.writeOk = true ∧ env.statusExn = false ∧
          env.statusRc ≠ 0) ∧
      ((main cfg env).exitCode = 5 ↔ env.repo_isdir = true ∧ env.weekday < 5 ∧
          env.r < cfg.probability ∧ env.writeOk = true ∧ env.statusExn = false ∧
          env.statusRc = 0 ∧ env.addExn = false ∧ env.addRc ≠ 0) ∧
      ((main cfg env).exitCode = 6 ↔ env.repo_isdir = true ∧ env.weekday < 5 ∧
          env.r < cfg.probability ∧ env.writeOk = true ∧ env.statusExn = false ∧
          env.statusRc = 0 ∧ env.addExn = false ∧ env.addRc = 0 ∧ cfg.dry_run = false ∧
          env.commitExn = false ∧ env.commitRc = 0 ∧ env.pushExn = false ∧
          env.pushRc ≠ 0) ∧
      ((main cfg env).exitCode = 7 ↔ env.repo_isdir = true ∧ env.weekday < 5 ∧
          env.r < cfg.probability ∧ env.writeOk = true ∧
          (env.statusExn = true ∨ (env.statusRc = 0 ∧ (env.addExn = true ∨
            (env.addRc = 0 ∧ cfg.dry_run = false ∧ (env.commitExn = true ∨
              (env.commitRc = 0 ∧ env.pushExn = true))))))) ∧
      ((main cfg env).exitCode = 0 ↔ env.repo_isdir = true ∧ (5 ≤ env.weekday ∨
          (env.weekday < 5 ∧ (cfg.probability ≤ env.r ∨ (env.r < cfg.probability ∧
            env.writeOk = true ∧ env.statusExn = false ∧ env.statusRc = 0 ∧
            env.addExn = false ∧ env.addRc = 0 ∧ (cfg.dry_run = true ∨
              (cfg.dry_run = false ∧ env.commitExn = false ∧ (env.commitRc ≠ 0 ∨
                (env.commitRc = 0 ∧ env.pushExn = false ∧ env.pushRc = 0)))))))))) ∧
     ((∃ e : Env, (main CONFIG e).exitCode = 2) ∧
      (∃ e : Env, (main CONFIG e).exitCode = 3) ∧
      (∃ e : Env, (main CONFIG e).exitCode = 4) ∧
      (∃ e : Env, (main CONFIG e).exitCode = 5) ∧
      (∃ e : Env, (main CONFIG e).exitCode = 6) ∧
      (∃ e : Env, (main CONFIG e).exitCode = 7))) := by
  obtain ⟨hmem, hrest⟩ := exitCode_characterization cfg env
  exact ⟨⟨hmem, by decide⟩, hrest, exitCode_reachable⟩

/-- C3: with a valid repository path, a run on either rest day (weekday 5 or
6) exits 0 with no file mutation and no git invocation. The path validation
of lines 38-40 precedes the calendar gate, so the repository hypothesis is
needed to reach it. -/
theorem c3_rest_day (cfg : Config) (env : Env)
    (hrepo : env.repo_isdir = true) (hwd : env.weekday = 5 ∨ env.weekday = 6) :
    (main cfg env).exitCode = 0 ∧ (main cfg env).appended = [] ∧
    (main cfg env).gitCmds = [] := by
  have h5 : 5 ≤ env.weekday := by rcases hwd with h | h <;> omega
  simp [main, hrepo, h5]

/-- Witness for C3: a Sunday run. -/
theorem c3_witness :
    (main CONFIG envRest).exitCode = 0 ∧ (main CONFIG envRest).appended = [] ∧
    (main CONFIG envRest).gitCmds = [] :=
  c3_rest_day CONFIG envRest rfl (Or.inr rfl)

/-- C4: on a non-rest weekday, a draw in [0,1) at or above the configured
probability exits 0 with no file mutation and no git invocation. -/
theorem c4_probability_miss (cfg : Config) (env : Env)
    (hrepo : env.repo_isdir = true) (hwd : env.weekday < 5)
    (h0 : 0 ≤ env.r) (h1 : env.r < 1) (hge : cfg.probability ≤ env.r) :
    (main cfg env).exitCode = 0 ∧ (main cfg env).appended = [] ∧
    (main cfg env).gitCmds = [] := by
  have hwd' : ¬ 5 ≤ env.weekday := by omega
  simp [main, hrepo, hwd', hge]

/-- Witness for C4: a weekday run whose draw is 8/10 against probability
7/10. -/
theorem c4_witness :
    (main CONFIG envMiss).exitCode = 0 ∧ (main CONFIG envMiss).appended = [] ∧
    (main CONFIG envMiss).gitCmds = [] :=
  c4_probability_miss CONFIG envMiss rfl (by decide) envMiss_r_nonneg envMiss_r_lt_one
    envMiss_r_ge_probability

/-- C5: when the repository path is not a directory, the run exits with code
2 after printing the diagnostic, with no file write and no git
invocation. -/
theorem c5_bad_repo (cfg : Config) (env : Env) (hrepo : env.repo_isdir = false) :
    (main cfg env).exitCode = 2 ∧ (main cfg env).appended = [] ∧
    (main cfg env).gitCmds = [] ∧
    ("ERROR: REPO_DIR not found: " ++ cfg.repo_dir) ∈ (main cfg env).stderrLines := by
  simp [main, hrepo]

/-- Witness for C5: the happy run with the repository directory absent. -/
theorem c5_witness :
    (main CONFIG envNoRepo).exitCode = 2 ∧ (main CONFIG envNoRepo).appended = [] ∧
    (main CONFIG envNoRepo).gitCmds = [] ∧
    ("ERROR: REPO_DIR not found: " ++ CONFIG.repo_dir) ∈ (main CONFIG envNoRepo).stderrLines :=
  c5_bad_repo CONFIG envNoRepo rfl

/-- C6: in a non-dry run that reaches the commit call, a non-zero commit
result terminates the run normally with exit code 0 and the push command is
never invoked. -/
theorem c6_commit_nonzero (cfg : Config) (env : Env)
    (hrepo : env.repo_isdir = true) (hwd : env.weekday < 5)
    (hr : env.r < cfg.probability) (hw : env.writeOk = true)
    (hsE : env.statusExn = false) (hsRc : env.statusRc = 0)
    (haE : env.addExn = false) (haRc : env.addRc = 0)
    (hdry : cfg.dry_run = false) (hcE : env.commitExn = false)
    (hcRc : env.commitRc ≠ 0) :
    (main cfg env).exitCode = 0 ∧ GitCmd.push ∉ (main cfg env).gitCmds := by
  have hwd' : ¬ 5 ≤ env.weekday := by omega
  have hr' : ¬ cfg.probability ≤ env.r := not_le.mpr hr
  simp [main, hrepo, hwd', hr', hw, hsE, hsRc, haE, haRc, hdry, hcE, hcRc]

/-- Witness for C6: the happy run with `git commit` returning 1. -/
theorem c6_witness :
    (main CONFIG envNothingToCommit).exitCode = 0 ∧
    GitCmd.push ∉ (main CONFIG envNothingToCommit).gitCmds :=
  c6_commit_nonzero CONFIG envNothingToCommit rfl (by decide) envHappy_r_lt_probability
    rfl rfl rfl rfl rfl rfl rfl (by decide)

/-- C7 counterexample: in a fully successful dry run against the compiled-in
configuration, `git add activity_log.txt` is among the attempted
invocations — the target file IS staged, so a side-effecting
version-control invocation does occur in a dry run. -/
theorem c7_counterexample :
    DRYCFG.dry_run = true ∧ (main DRYCFG envHappy).exitCode = 0 ∧
    GitCmd.add DRYCFG.filename ∈ (main DRYCFG envHappy).gitCmds := by
  refine ⟨rfl, ?_, ?_⟩ <;> simp [main, DRYCFG, CONFIG, envHappy] <;> norm_num

/-- C7 (amended): when the dry-run flag is enabled, the commit and push
invocations are suppressed in every run, but the status probe and the
staging of the target file still occur: whenever the run reaches a
successful status probe, `git add` on the target file is invoked. -/
theorem c7_amended (cfg : Config) (env : Env) (hdry : cfg.dry_run = true) :
    ((∀ m, GitCmd.commit m ∉ (main cfg env).gitCmds) ∧
     GitCmd.push ∉ (main cfg env).gitCmds) ∧
    (env.repo_isdir = true → env.weekday < 5 → env.r < cfg.probability →
      env.writeOk = true → env.statusExn = false → env.statusRc = 0 →
      GitCmd.add cfg.filename ∈ (main cfg env).gitCmds) := by
  constructor
  · by_cases h1 : env.repo_isdir = false
    · simp [main, h1]
    · by_cases h2 : 5 ≤ env.weekday
      · simp [main, h1, h2]
      · by_cases h3 : cfg.probability ≤ env.r
        · simp [main, h1, h2, h3]
        · by_cases h4 : env.writeOk = false
          · simp [main, h1, h2, h3, h4]
          · by_cases h5 : env.statusExn = true
            · simp [main, h1, h2, h3, h4, h5]
            · by_cases h6 : env.statusRc = 0
              · by_cases h7 : env.addExn = true
                · simp [main, h1, h2, h3, h4, h5, h6, h7]
                · by_cases h8 : env.addRc = 0
                  · simp [main, h1, h2, h3, h4, h5, h6, h7, h8, hdry]
                  · simp [main, h1, h2, h3, h4, h5, h6, h7, h8]
              · simp [main, h1, h2, h3, h4, h5, h6]
  · intro hrepo hwd hr hw hsE hsRc
    exact add_mem_gitCmds cfg env hrepo hwd hr hw hsE hsRc

/-- Witness for the amended C7: the successful dry run. -/
theorem c7_witness :
    ((∀ m, GitCmd.commit m ∉ (main DRYCFG envHappy).gitCmds) ∧
     GitCmd.push ∉ (main DRYCFG envHappy).gitCmds) ∧
    (envHappy.repo_isdir = true → envHappy.weekday < 5 →
      envHappy.r < DRYCFG.probability → envHappy.writeOk = true →
      envHappy.statusExn = false → envHappy.statusRc = 0 →
      GitCmd.add DRYCFG.filename ∈ (main DRYCFG envHappy).gitCmds) :=
  c7_amended DRYCFG envHappy rfl

/-- C8: in a dry run that passes both gates, whose file write succeeds and
whose status probe and staging return 0, the target file is still mutated
(the one line is appended), the would-be commit message is reported, and
the run terminates with exit code 0 without ever invoking the commit or
push command. -/
theorem c8_dry_run (cfg : Config) (env : Env)
    (hdry : cfg.dry_run = true)
    (hrepo : env.repo_isdir = true) (hwd : env.weekday < 5)
    (hr : env.r < cfg.probability) (hw : env.writeOk = true)
    (hsE : env.statusExn = false) (hsRc : env.statusRc = 0)
    (haE : env.addExn = false) (haRc : env.addRc = 0) :
    (main cfg env).appended =
      [env.now2.isoformatSeconds ++ " — " ++ chooseNote cfg.notes env.noteIdx ++ "\n"] ∧
    ("[DRY RUN] Would commit with message: " ++
      ("Automated activity: " ++ env.now2.isoformatSeconds ++ " — " ++
        chooseNote cfg.notes env.noteIdx)) ∈ (main cfg env).stdoutLines ∧
    (main cfg env).exitCode = 0 ∧
    (∀ m, GitCmd.commit m ∉ (main cfg env).gitCmds) ∧
    GitCmd.push ∉ (main cfg env).gitCmds := by
  have hwd' : ¬ 5 ≤ env.weekday := by omega
  have hr' : ¬ cfg.probability ≤ env.r := not_le.mpr hr
  simp [main, hrepo, hwd', hr', hw, hsE, hsRc, haE, haRc, hdry]

/-- Witness for C8: the successful dry run. -/
theorem c8_witness :
    (main DRYCFG envHappy).appended =
      [envHappy.now2.isoformatSeconds ++ " — " ++
        chooseNote DRYCFG.notes envHappy.noteIdx ++ "\n"] ∧
    ("[DRY RUN] Would commit with message: " ++
      ("Automated activity: " ++ envHappy.now2.isoformatSeconds ++ " — " ++
        chooseNote DRYCFG.notes envHappy.noteIdx)) ∈ (main DRYCFG envHappy).stdoutLines ∧
    (main DRYCFG envHappy).exitCode = 0 ∧
    (∀ m, GitCmd.commit m ∉ (main DRYCFG envHappy).gitCmds) ∧
    GitCmd.push ∉ (main DRYCFG envHappy).gitCmds :=
  c8_dry_run DRYCFG envHappy rfl rfl (by decide) envHappy_r_lt_probability rfl rfl rfl rfl rfl

/-- C9: the target file is append-only on every execution path: the prior
contents are a prefix of the contents afterwards, and what a run appends
does not depend on the outcomes of the git phase — overriding every status,
add, commit, push outcome and the exception message leaves the appended
lines unchanged, so an appended line is never removed or rolled back when a
later stage, commit or push step fails. -/
theorem c9_append_only (cfg : Config) (env : Env) (old : String)
    (sE : Bool) (sRc : Nat) (sO sEr : String) (aE : Bool) (aRc : Nat) (aO aEr : String)
    (cE : Bool) (cRc : Nat) (cO cEr : String) (pE : Bool) (pRc : Nat) (pO pEr : String)
    (m : String) :
    (∃ tail, fileAfter old cfg env = old ++ tail) ∧
    (main cfg { env with statusExn := sE, statusRc := sRc, statusOut := sO, statusErr := sEr,
                         addExn := aE, addRc := aRc, addOut := aO, addErr := aEr,
                         commitExn := cE, commitRc := cRc, commitOut := cO, commitErr := cEr,
                         pushExn := pE, pushRc := pRc, pushOut := pO, pushErr := pEr,
                         exnMsg := m }).appended = (main cfg env).appended := by
  refine ⟨⟨String.join (main cfg env).appended, rfl⟩, ?_⟩
  rw [main_appended_char, main_appended_char]

/-- C10: the captured text of the `status --porcelain` probe is never
inspected when its return code is 0: two runs identical up to that captured
stdout/stderr produce identical results, and in particular a run whose probe
reports a clean tree still proceeds to stage the file. -/
theorem c10_status_output_ignored (cfg : Config) (env : Env) (o1 e1 o2 e2 : String)
    (h : env.statusRc = 0) :
    main cfg { env with statusOut := o1, statusErr := e1 } =
      main cfg { env with statusOut := o2, statusErr := e2 } ∧
    (env.repo_isdir = true → env.weekday < 5 → env.r < cfg.probability →
      env.writeOk = true → env.statusExn = false →
      GitCmd.add cfg.filename ∈ (main cfg { env with statusOut := o1, statusErr := e1 }).gitCmds) := by
  constructor
  · by_cases h1 : env.repo_isdir = false
    · simp [main, h1]
    · by_cases h2 : 5 ≤ env.weekday
      · simp [main, h1, h2]
      · by_cases h3 : cfg.probability ≤ env.r
        · simp [main, h1, h2, h3]
        · by_cases h4 : env.writeOk = false
          · simp [main, h1, h2, h3, h4]
          · by_cases h5 : env.statusExn = true
            · simp [main, h1, h2, h3, h4, h5]
            · simp [main, h1, h2, h3, h4, h5, h]
  · intro hrepo hwd hr hw hsE
    exact add_mem_gitCmds cfg _ hrepo hwd hr hw hsE h

/-- Witness for C10: the happy run with a non-empty probe report on one side
and an empty (clean-tree) report on the other. -/
theorem c10_witness :
    main CONFIG { envHappy with statusOut := "M activity_log.txt", statusErr := "warning" } =
      main CONFIG { envHappy with statusOut := "", statusErr := "" } ∧
    (envHappy.repo_isdir = true → envHappy.weekday < 5 → envHappy.r < CONFIG.probability →
      envHappy.writeOk = true → envHappy.statusExn = false →
      GitCmd.add CONFIG.filename ∈
        (main CONFIG { envHappy with statusOut := "M activity_log.txt",
                                     statusErr := "warning" }).gitCmds) :=
  c10_status_output_ignored CONFIG envHappy "M activity_log.txt" "warning" "" "" rfl

end ActivityLog
